import Mathlib

/-!
Verification of the simplified `/validate` and `/feedback` handlers of
`server.js` (the second, "simplified" variant of the service, which is the
one the specification treats as authoritative).

Modelling conventions:
* JavaScript numbers are modelled as exact rationals (`ℚ`).  IEEE-754
  rounding, overflow to `Infinity`, negative zero, and the exponent-notation
  fallback of `toFixed` for magnitudes at or above 10^21 are outside the
  model.  `NaN` and the infinities that arise from parsing failures and
  division by zero are modelled explicitly by the `JSNum` type below.
* Request-body values (results of JSON parsing) are modelled by `JSVal`:
  `undefined` (absent field), `null`, booleans, finite numbers and strings.
* String-to-number coercion (`Number`, `parseFloat`, `parseInt`) is modelled
  for decimal numerals - optional sign, digits, decimal point, optional
  decimal exponent - which is the grammar shared by all three.  JavaScript
  oddities outside that grammar (hex/octal/binary literals, the string
  "Infinity", Unicode whitespace classes) are outside the model.
* The `for (let [key, value] of Object.entries(parameters))` loop of the
  numeric-format check runs over the literal `parameters` object in its
  insertion order; the handler below unrolls it in exactly that order, with
  the message template `` `${label} must be a valid number.` `` instantiated
  at each field's label from `fieldLabels`.
-/

/-- Values a JSON request-body field can hold, as seen by the handler.
`undef` stands for an absent field. -/
inductive JSVal where
  | undef
  | nullv
  | boolv (b : Bool)
  | num (q : ℚ)
  | str (s : String)
deriving DecidableEq

/-- JavaScript truthiness of a request value (`!v` in the source tests its
negation). -/
def truthy : JSVal → Bool
  | .undef => false
  | .nullv => false
  | .boolv b => b
  | .num q => decide (q ≠ 0)
  | .str s => decide (s ≠ "")

/-- Drop leading whitespace characters. -/
def skipWs (l : List Char) : List Char := l.dropWhile Char.isWhitespace

/-- Accumulate a run of decimal digits: returns the value read so far, the
number of digits consumed, and the rest of the input. -/
def parseDigitsAux (acc n : ℕ) : List Char → ℕ × ℕ × List Char
  | [] => (acc, n, [])
  | c :: cs =>
    if c.isDigit then parseDigitsAux (10 * acc + (c.toNat - 48)) (n + 1) cs
    else (acc, n, c :: cs)

/-- Consume an optional leading sign; returns whether it was a minus sign. -/
def parseSignChar : List Char → Bool × List Char
  | '-' :: l => (true, l)
  | '+' :: l => (false, l)
  | l => (false, l)

/-- Parse an unsigned decimal mantissa: `digits`, `digits.digits`,
`digits.` or `.digits` (at least one digit overall). -/
def parseMantissa (l : List Char) : Option (ℚ × List Char) :=
  let (ip, nInt, l1) := parseDigitsAux 0 0 l
  match l1 with
  | '.' :: l2 =>
    let (fp, nFrac, l3) := parseDigitsAux 0 0 l2
    if nInt = 0 ∧ nFrac = 0 then none
    else some ((ip : ℚ) + (fp : ℚ) / (10 : ℚ) ^ nFrac, l3)
  | _ => if nInt = 0 then none else some ((ip : ℚ), l1)

/-- Parse a decimal exponent part `e`/`E`, optional sign, digits; `none` if
the part is absent or malformed (the caller then backtracks). -/
def parseExponent (l : List Char) : Option (Bool × ℕ × List Char) :=
  match l with
  | c :: l1 =>
    if c = 'e' ∨ c = 'E' then
      let (eneg, l2) := parseSignChar l1
      let (ev, n, l3) := parseDigitsAux 0 0 l2
      if n = 0 then none else some (eneg, ev, l3)
    else none
  | [] => none

/-- Parse the longest decimal-numeral head of the input: optional sign,
mantissa, optional exponent.  Returns the value and the unconsumed rest. -/
def parseNumHead (l : List Char) : Option (ℚ × List Char) :=
  let (neg, l1) := parseSignChar l
  match parseMantissa l1 with
  | none => none
  | some (m, l2) =>
    let (m2, l3) :=
      match parseExponent l2 with
      | some (eneg, ev, r) =>
        (if eneg then m / (10 : ℚ) ^ ev else m * (10 : ℚ) ^ ev, r)
      | none => (m, l2)
    some (if neg then -m2 else m2, l3)

/-- JavaScript `Number(v)` coercion, as used by the `<`/`<=`/`>` comparisons
and by `isFinite`; `none` models `NaN`.  A whitespace-only string coerces
to `0`; otherwise the whole trimmed string must be a decimal numeral. -/
def jsToNumber : JSVal → Option ℚ
  | .undef => none
  | .nullv => some 0
  | .boolv b => some (if b then 1 else 0)
  | .num q => some q
  | .str s =>
    let l := skipWs s.toList
    if l.isEmpty then some 0
    else
      match parseNumHead l with
      | some (q, r) => if (skipWs r).isEmpty then some q else none
      | none => none

/-- JavaScript `parseFloat(v)`: skip leading whitespace, read the longest
decimal-numeral head; `none` models `NaN`.  Non-string, non-number values
stringify to words (`"undefined"`, `"null"`, `"true"`, ...) with no numeral
head. -/
def jsParseFloat : JSVal → Option ℚ
  | .num q => some q
  | .str s => (parseNumHead (skipWs s.toList)).map Prod.fst
  | _ => none

/-- Truncation toward zero, matching `parseInt` applied to the decimal
rendering of a finite number. -/
def ratTrunc (q : ℚ) : ℤ := if q < 0 then -⌊-q⌋ else ⌊q⌋

/-- Parse the longest integer head: optional sign then decimal digits. -/
def parseIntHead (l : List Char) : Option ℤ :=
  let (neg, l1) := parseSignChar l
  let (v, n, _) := parseDigitsAux 0 0 l1
  if n = 0 then none else some (if neg then -(v : ℤ) else (v : ℤ))

/-- JavaScript `parseInt(v, 10)`: stringify, skip whitespace, read an
optional sign and a digit run; `none` models `NaN`.  Note that it stops at
a decimal point or exponent marker, so `parseInt(".9e1")` is `NaN` and
`parseInt("0.9e1")` is `0` even though `Number` reads both as `9`. -/
def jsParseInt : JSVal → Option ℤ
  | .num q => some (ratTrunc q)
  | .str s => parseIntHead (skipWs s.toList)
  | _ => none

/-- Coerced comparison `v < c` (false when the coercion yields `NaN`). -/
def jsLtNum (v : JSVal) (c : ℚ) : Bool :=
  match jsToNumber v with
  | some q => decide (q < c)
  | none => false

/-- Coerced comparison `v <= c` (false when the coercion yields `NaN`). -/
def jsLeNum (v : JSVal) (c : ℚ) : Bool :=
  match jsToNumber v with
  | some q => decide (q ≤ c)
  | none => false

/-- Coerced comparison `v > c` (false when the coercion yields `NaN`). -/
def jsGtNum (v : JSVal) (c : ℚ) : Bool :=
  match jsToNumber v with
  | some q => decide (c < q)
  | none => false

/-- The source's `isNumeric`:
`!isNaN(parseFloat(value)) && isFinite(value)` - the head parse must
succeed and the full `Number` coercion must be a (finite) number. -/
def isNumeric (v : JSVal) : Bool :=
  (jsParseFloat v).isSome && (jsToNumber v).isSome

/-- JavaScript double values that can flow through the calculation: a
finite number, a signed infinity, or `NaN`. -/
inductive JSNum where
  | nan
  | inf (pos : Bool)
  | fin (q : ℚ)
deriving DecidableEq

/-- JavaScript addition on `JSNum`. -/
def jsAdd : JSNum → JSNum → JSNum
  | .nan, _ => .nan
  | _, .nan => .nan
  | .inf p, .inf q => if p = q then .inf p else .nan
  | .inf p, .fin _ => .inf p
  | .fin _, .inf p => .inf p
  | .fin a, .fin b => .fin (a + b)

/-- JavaScript negation on `JSNum`. -/
def jsNeg : JSNum → JSNum
  | .nan => .nan
  | .inf p => .inf (!p)
  | .fin a => .fin (-a)

/-- JavaScript subtraction on `JSNum`. -/
def jsSub (a b : JSNum) : JSNum := jsAdd a (jsNeg b)

/-- JavaScript multiplication on `JSNum`. -/
def jsMul : JSNum → JSNum → JSNum
  | .nan, _ => .nan
  | _, .nan => .nan
  | .inf p, .inf q => .inf (p = q)
  | .inf p, .fin b => if b = 0 then .nan else .inf (p = decide (0 < b))
  | .fin a, .inf q => if a = 0 then .nan else .inf (decide (0 < a) = q)
  | .fin a, .fin b => .fin (a * b)

/-- JavaScript division on `JSNum` (a nonzero finite number divided by zero
gives a signed infinity; `0/0` gives `NaN`). -/
def jsDiv : JSNum → JSNum → JSNum
  | .nan, _ => .nan
  | _, .nan => .nan
  | .inf _, .inf _ => .nan
  | .inf p, .fin b => if b < 0 then .inf (!p) else .inf p
  | .fin _, .inf _ => .fin 0
  | .fin a, .fin b =>
    if b = 0 then
      if a = 0 then .nan else if 0 < a then .inf true else .inf false
    else .fin (a / b)

/-- JavaScript `>=` comparison on `JSNum` (false whenever `NaN` is
involved). -/
def jsGe : JSNum → JSNum → Bool
  | .nan, _ => false
  | _, .nan => false
  | .inf p, .inf q => p || !q
  | .inf p, .fin _ => p
  | .fin _, .inf q => !q
  | .fin a, .fin b => decide (b ≤ a)

/-- JavaScript `Math.floor` on `JSNum`. -/
def jsFloor : JSNum → JSNum
  | .nan => .nan
  | .inf p => .inf p
  | .fin q => .fin ⌊q⌋

/-- Render a rational with exactly two digits after the decimal point,
rounding to the nearest hundredth of the magnitude with ties away from
zero, as `Number.prototype.toFixed(2)` does for ordinary magnitudes. -/
def toFixed2 (q : ℚ) : String :=
  let n : ℕ := (⌊|q| * 100 + 1 / 2⌋).toNat
  let sign : String := if q < 0 then "-" else ""
  sign ++ Nat.repr (n / 100) ++ "." ++
    (if n % 100 < 10 then "0" else "") ++ Nat.repr (n % 100)

/-- JavaScript `x.toFixed(2)` on a `JSNum`. -/
def jsToFixed2 : JSNum → String
  | .nan => "NaN"
  | .inf true => "Infinity"
  | .inf false => "-Infinity"
  | .fin q => toFixed2 q

/-- Convert a validated request value as the handler does with
`parseFloat`; a failed parse is `NaN`. -/
def toJSNumFloat (v : JSVal) : JSNum :=
  match jsParseFloat v with
  | some q => .fin q
  | none => .nan

/-- Convert a validated request value as the handler does with
`parseInt(-, 10)`; a failed parse is `NaN`. -/
def toJSNumInt (v : JSVal) : JSNum :=
  match jsParseInt v with
  | some n => .fin (n : ℚ)
  | none => .nan

/-- The `additionalMonthlyIncomeNeeded` response field: the JSON number `0`
in the affordable case, otherwise the string produced by `toFixed(2)`. -/
inductive JField where
  | jnum (q : ℚ)
  | jstr (s : String)
deriving DecidableEq

/-- The body of a 200 response from `/validate`. -/
structure CalcResponse where
  initialCosts : JSNum
  totalMonthlyCost : JSNum
  totalCostOverTime : JSNum
  affordabilityDuration : JSNum
  canAfford : Bool
  additionalMonthlyIncomeNeeded : JField
deriving DecidableEq

/-- A response from `/validate`: 400 with a single error message, or 200
with the calculation result.  The `try`-block of the source contains no
throwing operation, so the 500 branch of the handler is dead and has no
constructor here (see the claim-C9 theorems). -/
inductive ValidateResponse where
  | badRequest (error : String)
  | ok (resp : CalcResponse)
deriving DecidableEq

/-- The calculation block of the handler (source lines 368-391), on the
already-converted numbers. -/
def calculate (masc mlc rent dep inc sav months : JSNum) : CalcResponse :=
  let initialCosts := jsAdd masc dep
  let totalMonthlyCost := jsAdd mlc rent
  let totalCostOverTime := jsAdd initialCosts (jsMul totalMonthlyCost months)
  let totalFundsAvailable := jsAdd sav (jsMul inc months)
  let canAfford := jsGe totalFundsAvailable totalCostOverTime
  { initialCosts := initialCosts
    totalMonthlyCost := totalMonthlyCost
    totalCostOverTime := totalCostOverTime
    affordabilityDuration := jsFloor (jsDiv totalFundsAvailable totalMonthlyCost)
    canAfford := canAfford
    additionalMonthlyIncomeNeeded :=
      if canAfford then .jnum 0
      else .jstr (jsToFixed2 (jsSub (jsDiv (jsSub totalCostOverTime sav) months) inc)) }

/-- The JSON body of a request to `/validate` (simplified variant). -/
structure ValidateRequest where
  movingAndSetupCost : JSVal
  monthlyLivingCost : JSVal
  rent : JSVal
  securityDeposit : JSVal
  totalMonthlyIncome : JSVal
  totalSavings : JSVal
  monthsToEvaluate : JSVal
deriving DecidableEq

/-- Failure condition of the first presence/range check:
`!movingAndSetupCost || movingAndSetupCost < 0`. -/
def cMovingPR (req : ValidateRequest) : Bool :=
  !truthy req.movingAndSetupCost || jsLtNum req.movingAndSetupCost 0

/-- Failure condition of the `monthlyLivingCost` presence/range check. -/
def cLivingPR (req : ValidateRequest) : Bool :=
  !truthy req.monthlyLivingCost || jsLtNum req.monthlyLivingCost 0

/-- Failure condition of the `rent` presence/range check (`rent <= 0`). -/
def cRentPR (req : ValidateRequest) : Bool :=
  !truthy req.rent || jsLeNum req.rent 0

/-- Failure condition of the `monthsToEvaluate` presence/range check:
falsy, below 1 or above 60. -/
def cMonthsPR (req : ValidateRequest) : Bool :=
  !truthy req.monthsToEvaluate || jsLtNum req.monthsToEvaluate 1
    || jsGtNum req.monthsToEvaluate 60

/-- Failure condition of the `securityDeposit` presence/range check. -/
def cDepositPR (req : ValidateRequest) : Bool :=
  !truthy req.securityDeposit || jsLtNum req.securityDeposit 0

/-- Failure condition of the `totalMonthlyIncome` presence/range check
(`totalMonthlyIncome <= 0`). -/
def cIncomePR (req : ValidateRequest) : Bool :=
  !truthy req.totalMonthlyIncome || jsLeNum req.totalMonthlyIncome 0

/-- Failure condition of the `totalSavings` presence/range check. -/
def cSavingsPR (req : ValidateRequest) : Bool :=
  !truthy req.totalSavings || jsLtNum req.totalSavings 0

/-- The successful-path response: every field converted with `parseFloat`,
except `monthsToEvaluate` which the source converts with `parseInt`. -/
def convertedResponse (req : ValidateRequest) : CalcResponse :=
  calculate (toJSNumFloat req.movingAndSetupCost) (toJSNumFloat req.monthlyLivingCost)
    (toJSNumFloat req.rent) (toJSNumFloat req.securityDeposit)
    (toJSNumFloat req.totalMonthlyIncome) (toJSNumFloat req.totalSavings)
    (toJSNumInt req.monthsToEvaluate)

/-- The `POST /validate` handler (source lines 294-398): seven
presence/range checks in source order, then the numeric-format loop over
the `parameters` object unrolled in its insertion order, then the
calculation. -/
def validateHandler (req : ValidateRequest) : ValidateResponse :=
  if cMovingPR req then .badRequest "Invalid moving and setup costs provided."
  else if cLivingPR req then .badRequest "Invalid monthly living costs provided."
  else if cRentPR req then .badRequest "Invalid rent provided."
  else if cMonthsPR req then .badRequest "Months To Evaluate must be between 1 and 60."
  else if cDepositPR req then .badRequest "Invalid security deposit provided."
  else if cIncomePR req then .badRequest "Invalid total monthly income provided."
  else if cSavingsPR req then .badRequest "Invalid total savings provided."
  else if !isNumeric req.movingAndSetupCost then
    .badRequest "Moving & Setup Costs must be a valid number."
  else if !isNumeric req.monthlyLivingCost then
    .badRequest "Monthly Living Costs must be a valid number."
  else if !isNumeric req.rent then
    .badRequest "Monthly Rent must be a valid number."
  else if !isNumeric req.securityDeposit then
    .badRequest "Security Deposit must be a valid number."
  else if !isNumeric req.totalMonthlyIncome then
    .badRequest "Total Monthly Income must be a valid number."
  else if !isNumeric req.totalSavings then
    .badRequest "Total Savings must be a valid number."
  else if !isNumeric req.monthsToEvaluate then
    .badRequest "Months to Evaluate must be a valid number."
  else .ok (convertedResponse req)

/-- First failing check of an ordered check list, with its message. -/
def firstError : List (Bool × String) → Option String
  | [] => none
  | (b, m) :: rest => if b then some m else firstError rest

/-- All fourteen validation checks of the handler in the order the source
runs them: the seven presence/range checks, then the seven numeric-format
checks in the insertion order of the `parameters` object (which places
`monthsToEvaluate` last). -/
def checkList (req : ValidateRequest) : List (Bool × String) :=
  [ (cMovingPR req, "Invalid moving and setup costs provided."),
    (cLivingPR req, "Invalid monthly living costs provided."),
    (cRentPR req, "Invalid rent provided."),
    (cMonthsPR req, "Months To Evaluate must be between 1 and 60."),
    (cDepositPR req, "Invalid security deposit provided."),
    (cIncomePR req, "Invalid total monthly income provided."),
    (cSavingsPR req, "Invalid total savings provided."),
    (!isNumeric req.movingAndSetupCost, "Moving & Setup Costs must be a valid number."),
    (!isNumeric req.monthlyLivingCost, "Monthly Living Costs must be a valid number."),
    (!isNumeric req.rent, "Monthly Rent must be a valid number."),
    (!isNumeric req.securityDeposit, "Security Deposit must be a valid number."),
    (!isNumeric req.totalMonthlyIncome, "Total Monthly Income must be a valid number."),
    (!isNumeric req.totalSavings, "Total Savings must be a valid number."),
    (!isNumeric req.monthsToEvaluate, "Months to Evaluate must be a valid number.") ]

/-- Modelled from the spec: claim C6 reads the error choice as
first-failure-wins in the single field order (movingAndSetupCost,
monthlyLivingCost, rent, monthsToEvaluate, securityDeposit,
totalMonthlyIncome, totalSavings), with the numeric-format phase after the
presence/range phase but in that same field order. -/
def claimedCheckList (req : ValidateRequest) : List (Bool × String) :=
  [ (cMovingPR req, "Invalid moving and setup costs provided."),
    (cLivingPR req, "Invalid monthly living costs provided."),
    (cRentPR req, "Invalid rent provided."),
    (cMonthsPR req, "Months To Evaluate must be between 1 and 60."),
    (cDepositPR req, "Invalid security deposit provided."),
    (cIncomePR req, "Invalid total monthly income provided."),
    (cSavingsPR req, "Invalid total savings provided."),
    (!isNumeric req.movingAndSetupCost, "Moving & Setup Costs must be a valid number."),
    (!isNumeric req.monthlyLivingCost, "Monthly Living Costs must be a valid number."),
    (!isNumeric req.rent, "Monthly Rent must be a valid number."),
    (!isNumeric req.monthsToEvaluate, "Months to Evaluate must be a valid number."),
    (!isNumeric req.securityDeposit, "Security Deposit must be a valid number."),
    (!isNumeric req.totalMonthlyIncome, "Total Monthly Income must be a valid number."),
    (!isNumeric req.totalSavings, "Total Savings must be a valid number.") ]

/-- First error under claim C6's reading of the field order. -/
def claimedFirstError (req : ValidateRequest) : Option String :=
  firstError (claimedCheckList req)

/-- Escape one character the way `validator.js`'s `escape` sanitizer does
(the `.escape()` of the feedback middleware). -/
def escapeChar (c : Char) : String :=
  if c = '&' then "&amp;"
  else if c = Char.ofNat 34 then "&quot;"
  else if c = Char.ofNat 39 then "&#x27;"
  else if c = '<' then "&lt;"
  else if c = '>' then "&gt;"
  else if c = '/' then "&#x2F;"
  else if c = '\\' then "&#x5C;"
  else if c = Char.ofNat 96 then "&#96;"
  else String.singleton c

/-- HTML-escape a string character by character (equivalent to the
sequential global replacements of `validator.js`, since no replacement
output contains a character from the blacklist other than the already
processed `&`). -/
def escapeHtml (s : String) : String :=
  String.join (s.data.map escapeChar)

/-- The sanitization pipeline of the feedback middleware:
`body("feedback").trim().escape()`. -/
def sanitizeFeedback (s : String) : String :=
  escapeHtml s.trim

/-- The express-validator chain `body("feedback").trim().escape()` holds
only sanitizers and no validators, so `validationResult(req)` never
reports an error; the error list is empty for every input. -/
def feedbackValidationErrors (_feedback : String) : List String := []

/-- The row returned by the parameterized
`INSERT INTO feedback (content) VALUES ($1) RETURNING *`. -/
structure FeedbackRow where
  id : ℕ
  content : String
deriving DecidableEq

/-- A response from `POST /feedback`: 400 with an error array, 201 with
the stored row, or 500 with a generic message. -/
inductive FeedbackResponse where
  | badRequestErrors (errors : List String)
  | created (row : FeedbackRow)
  | serverError (error : String)
deriving DecidableEq

/-- The `POST /feedback` handler (source lines 400-425), parameterized by
the storage collaborator: `insert` receives the sanitized content and
either returns the stored row or fails with an internal error detail. -/
def feedbackHandler (feedback : String)
    (insert : String → Except String FeedbackRow) : FeedbackResponse :=
  if !(feedbackValidationErrors feedback).isEmpty then
    .badRequestErrors (feedbackValidationErrors feedback)
  else
    match insert (sanitizeFeedback feedback) with
    | .ok row => .created row
    | .error _ => .serverError "Internal server error"

/-- The worked example of spec section 8: every field a plain number. -/
def exampleReq : ValidateRequest :=
  { movingAndSetupCost := .num 1000
    monthlyLivingCost := .num 200
    rent := .num 1500
    securityDeposit := .num 1500
    totalMonthlyIncome := .num 4000
    totalSavings := .num 5000
    monthsToEvaluate := .num 6 }

/-- Expected 200 body for `exampleReq`. -/
def exampleResp : CalcResponse :=
  { initialCosts := .fin 2500
    totalMonthlyCost := .fin 1700
    totalCostOverTime := .fin 12700
    affordabilityDuration := .fin 17
    canAfford := true
    additionalMonthlyIncomeNeeded := .jnum 0 }

/-- The second worked example of spec section 8: income lowered to 500. -/
def exampleReqLowIncome : ValidateRequest :=
  { exampleReq with totalMonthlyIncome := .num 500 }

/-- Expected 200 body for `exampleReqLowIncome`. -/
def exampleRespLowIncome : CalcResponse :=
  { initialCosts := .fin 2500
    totalMonthlyCost := .fin 1700
    totalCostOverTime := .fin 12700
    affordabilityDuration := .fin 4
    canAfford := false
    additionalMonthlyIncomeNeeded := .jstr "783.33" }

/-- Request whose `monthsToEvaluate` is the numeric string ".9e1": the
`Number` coercion used by validation reads it as 9, but `parseInt` finds
no leading digit and yields `NaN`. -/
def reqMonthsDotNine : ValidateRequest :=
  { exampleReq with monthsToEvaluate := .str ".9e1" }

/-- Response the handler produces for `reqMonthsDotNine`. -/
def respMonthsDotNine : CalcResponse :=
  { initialCosts := .fin 2500
    totalMonthlyCost := .fin 1700
    totalCostOverTime := .nan
    affordabilityDuration := .nan
    canAfford := false
    additionalMonthlyIncomeNeeded := .jstr "NaN" }

/-- Request whose `monthsToEvaluate` is the numeric string "0.9e1"
(validated as 9 by `Number`, converted to 0 by `parseInt`), with savings
too small to cover the initial costs. -/
def reqMonthsZeroNine : ValidateRequest :=
  { exampleReq with
    totalSavings := .num 100
    monthsToEvaluate := .str "0.9e1" }

/-- Response the handler produces for `reqMonthsZeroNine`: the shortfall
division divides by zero and renders as "Infinity". -/
def respMonthsZeroNine : CalcResponse :=
  { initialCosts := .fin 2500
    totalMonthlyCost := .fin 1700
    totalCostOverTime := .fin 2500
    affordabilityDuration := .fin 0
    canAfford := false
    additionalMonthlyIncomeNeeded := .jstr "Infinity" }

/-- Request with `monthsToEvaluate` present and out of range (100) but
`rent` absent: the rent check runs before the months check. -/
def reqMonthsShadowed : ValidateRequest :=
  { exampleReq with
    rent := .undef
    monthsToEvaluate := .num 100 }

/-- Request with months out of range (100) and every other field valid. -/
def reqMonthsHundred : ValidateRequest :=
  { exampleReq with monthsToEvaluate := .num 100 }

/-- Request in which both `securityDeposit` (a whitespace string) and
`monthsToEvaluate` (the string "abc") pass the presence/range checks but
fail the numeric-format check: it separates the source's numeric-loop
order from the field order claimed by the spec. -/
def reqTwoNonNumeric : ValidateRequest :=
  { exampleReq with
    securityDeposit := .str " "
    monthsToEvaluate := .str "abc" }

/-- Values that pass the `isNumeric` check coerce identically under
`Number` and `parseFloat`: both parses go through the same numeral head,
and success of the full coercion forces the head parse to consume the
whole trimmed string. -/
theorem isNumeric_toNumber_eq (v : JSVal) (h : isNumeric v = true) :
    jsToNumber v = jsParseFloat v := by
  cases v with
  | undef => simp [isNumeric, jsParseFloat] at h
  | nullv => simp [isNumeric, jsParseFloat] at h
  | boolv b => simp [isNumeric, jsParseFloat] at h
  | num q => rfl
  | str s =>
    cases hp : parseNumHead (skipWs s.data) with
    | none =>
      have hf : jsParseFloat (.str s) = none := by
        simp [jsParseFloat, hp]
      rw [isNumeric, hf] at h
      simp at h
    | some pr =>
      obtain ⟨q, r⟩ := pr
      have hne : skipWs s.data ≠ [] := by
        intro he
        rw [he, show parseNumHead [] = none from rfl] at hp
        exact Option.noConfusion hp
      cases hw : skipWs r with
      | nil =>
        simp [jsToNumber, jsParseFloat, hp, hne, hw]
      | cons c cs =>
        have ht : jsToNumber (.str s) = none := by
          simp [jsToNumber, hp, hne, hw]
        rw [isNumeric, ht] at h
        simp at h

/-- A failed coerced `v < c` comparison on a value that coerces to a
number means the number is at least `c`. -/
theorem jsLtNum_false (v : JSVal) (q c : ℚ) (hv : jsToNumber v = some q)
    (h : jsLtNum v c = false) : c ≤ q := by
  rw [jsLtNum, hv] at h
  simpa using h

/-- A failed coerced `v <= c` comparison on a value that coerces to a
number means the number exceeds `c`. -/
theorem jsLeNum_false (v : JSVal) (q c : ℚ) (hv : jsToNumber v = some q)
    (h : jsLeNum v c = false) : c < q := by
  rw [jsLeNum, hv] at h
  simpa using h

/-- A field that passed `isNumeric` and whose `v < 0` range check failed
has a nonnegative `parseFloat` value. -/
theorem parseFloat_nonneg (v : JSVal) (q : ℚ) (hn : isNumeric v = true)
    (hp : jsParseFloat v = some q) (h : jsLtNum v 0 = false) : 0 ≤ q :=
  jsLtNum_false v q 0 ((isNumeric_toNumber_eq v hn).trans hp) h

/-- A field that passed `isNumeric` and whose `v <= 0` range check failed
has a positive `parseFloat` value. -/
theorem parseFloat_pos (v : JSVal) (q : ℚ) (hn : isNumeric v = true)
    (hp : jsParseFloat v = some q) (h : jsLeNum v 0 = false) : 0 < q :=
  jsLeNum_false v q 0 ((isNumeric_toNumber_eq v hn).trans hp) h

/-- Addition of finite `JSNum`s is rational addition. -/
theorem jsAdd_fin (a b : ℚ) : jsAdd (.fin a) (.fin b) = .fin (a + b) := rfl

/-- Multiplication of finite `JSNum`s is rational multiplication. -/
theorem jsMul_fin (a b : ℚ) : jsMul (.fin a) (.fin b) = .fin (a * b) := rfl

/-- Subtraction of finite `JSNum`s is rational subtraction. -/
theorem jsSub_fin (a b : ℚ) : jsSub (.fin a) (.fin b) = .fin (a - b) := by
  simp [jsSub, jsNeg, jsAdd, sub_eq_add_neg]

/-- Comparison of finite `JSNum`s is rational comparison. -/
theorem jsGe_fin (a b : ℚ) : jsGe (.fin a) (.fin b) = decide (b ≤ a) := rfl

/-- Floor of a finite `JSNum` is the rational floor. -/
theorem jsFloor_fin (q : ℚ) : jsFloor (.fin q) = .fin ⌊q⌋ := rfl

/-- Division of finite `JSNum`s with nonzero divisor is rational
division. -/
theorem jsDiv_fin (a b : ℚ) (hb : b ≠ 0) :
    jsDiv (.fin a) (.fin b) = .fin (a / b) := by
  simp [jsDiv, hb]

/-- Rendering a finite `JSNum` with `toFixed(2)`. -/
theorem jsToFixed2_fin (q : ℚ) : jsToFixed2 (.fin q) = toFixed2 q := rfl

/-- A value whose `parseFloat` succeeds converts to that finite number. -/
theorem toJSNumFloat_eq (v : JSVal) (q : ℚ) (h : jsParseFloat v = some q) :
    toJSNumFloat v = .fin q := by
  simp [toJSNumFloat, h]

/-- A value whose `parseInt` succeeds converts to that finite integer. -/
theorem toJSNumInt_eq (v : JSVal) (n : ℤ) (h : jsParseInt v = some n) :
    toJSNumInt v = .fin (n : ℚ) := by
  simp [toJSNumInt, h]

/-- Inversion of a 200 response: every presence/range check and every
numeric-format check passed, and the body is the converted calculation. -/
theorem validate_ok_elim (req : ValidateRequest) (resp : CalcResponse)
    (h : validateHandler req = .ok resp) :
    cMovingPR req = false ∧ cLivingPR req = false ∧ cRentPR req = false ∧
    cMonthsPR req = false ∧ cDepositPR req = false ∧ cIncomePR req = false ∧
    cSavingsPR req = false ∧
    isNumeric req.movingAndSetupCost = true ∧ isNumeric req.monthlyLivingCost = true ∧
    isNumeric req.rent = true ∧ isNumeric req.securityDeposit = true ∧
    isNumeric req.totalMonthlyIncome = true ∧ isNumeric req.totalSavings = true ∧
    isNumeric req.monthsToEvaluate = true ∧
    resp = convertedResponse req := by
  unfold validateHandler at h
  by_cases c1 : cMovingPR req = true
  · rw [if_pos c1] at h; exact (ValidateResponse.noConfusion h)
  rw [if_neg c1] at h
  by_cases c2 : cLivingPR req = true
  · rw [if_pos c2] at h; exact (ValidateResponse.noConfusion h)
  rw [if_neg c2] at h
  by_cases c3 : cRentPR req = true
  · rw [if_pos c3] at h; exact (ValidateResponse.noConfusion h)
  rw [if_neg c3] at h
  by_cases c4 : cMonthsPR req = true
  · rw [if_pos c4] at h; exact (ValidateResponse.noConfusion h)
  rw [if_neg c4] at h
  by_cases c5 : cDepositPR req = true
  · rw [if_pos c5] at h; exact (ValidateResponse.noConfusion h)
  rw [if_neg c5] at h
  by_cases c6 : cIncomePR req = true
  · rw [if_pos c6] at h; exact (ValidateResponse.noConfusion h)
  rw [if_neg c6] at h
  by_cases c7 : cSavingsPR req = true
  · rw [if_pos c7] at h; exact (ValidateResponse.noConfusion h)
  rw [if_neg c7] at h
  by_cases c8 : (!isNumeric req.movingAndSetupCost) = true
  · rw [if_pos c8] at h; exact (ValidateResponse.noConfusion h)
  rw [if_neg c8] at h
  by_cases c9 : (!isNumeric req.monthlyLivingCost) = true
  · rw [if_pos c9] at h; exact (ValidateResponse.noConfusion h)
  rw [if_neg c9] at h
  by_cases c10 : (!isNumeric req.rent) = true
  · rw [if_pos c10] at h; exact (ValidateResponse.noConfusion h)
  rw [if_neg c10] at h
  by_cases c11 : (!isNumeric req.securityDeposit) = true
  · rw [if_pos c11] at h; exact (ValidateResponse.noConfusion h)
  rw [if_neg c11] at h
  by_cases c12 : (!isNumeric req.totalMonthlyIncome) = true
  · rw [if_pos c12] at h; exact (ValidateResponse.noConfusion h)
  rw [if_neg c12] at h
  by_cases c13 : (!isNumeric req.totalSavings) = true
  · rw [if_pos c13] at h; exact (ValidateResponse.noConfusion h)
  rw [if_neg c13] at h
  by_cases c14 : (!isNumeric req.monthsToEvaluate) = true
  · rw [if_pos c14] at h; exact (ValidateResponse.noConfusion h)
  rw [if_neg c14] at h
  injection h with h
  exact ⟨by simpa using c1, by simpa using c2, by simpa using c3, by simpa using c4,
    by simpa using c5, by simpa using c6, by simpa using c7, by simpa using c8,
    by simpa using c9, by simpa using c10, by simpa using c11, by simpa using c12,
    by simpa using c13, by simpa using c14, h.symm⟩

/-- C1: for every request that passes all validation checks of the
simplified `/validate` handler, the `canAfford` field of the 200 response
is true exactly when `totalSavings + totalMonthlyIncome * monthsToEvaluate`
(the funds available) is at least
`initialCosts + totalMonthlyCost * monthsToEvaluate` (the cost over time),
in terms of the converted field values. -/
theorem c1_canAfford_iff_funds_cover (req : ValidateRequest) (resp : CalcResponse)
    (masc mlc rent dep inc sav : ℚ) (n : ℤ)
    (h : validateHandler req = .ok resp)
    (hmasc : jsParseFloat req.movingAndSetupCost = some masc)
    (hmlc : jsParseFloat req.monthlyLivingCost = some mlc)
    (hrent : jsParseFloat req.rent = some rent)
    (hdep : jsParseFloat req.securityDeposit = some dep)
    (hinc : jsParseFloat req.totalMonthlyIncome = some inc)
    (hsav : jsParseFloat req.totalSavings = some sav)
    (hn : jsParseInt req.monthsToEvaluate = some n) :
    resp.canAfford = true ↔
      (masc + dep) + (mlc + rent) * (n : ℚ) ≤ sav + inc * (n : ℚ) := by
  obtain ⟨-, -, -, -, -, -, -, -, -, -, -, -, -, -, hresp⟩ :=
    validate_ok_elim req resp h
  subst hresp
  rw [convertedResponse, toJSNumFloat_eq _ _ hmasc, toJSNumFloat_eq _ _ hmlc,
    toJSNumFloat_eq _ _ hrent, toJSNumFloat_eq _ _ hdep, toJSNumFloat_eq _ _ hinc,
    toJSNumFloat_eq _ _ hsav, toJSNumInt_eq _ _ hn]
  simp only [calculate, jsAdd_fin, jsMul_fin, jsGe_fin]
  exact decide_eq_true_iff

/-- Witness for C1 at the worked example of the spec: all checks pass and
the equivalence holds with both sides affordable. -/
theorem c1_witness :
    exampleResp.canAfford = true ↔
      ((1000 : ℚ) + 1500) + ((200 : ℚ) + 1500) * ((6 : ℤ) : ℚ) ≤
        5000 + 4000 * ((6 : ℤ) : ℚ) :=
  c1_canAfford_iff_funds_cover exampleReq exampleResp 1000 200 1500 1500 4000 5000 6
    (by with_unfolding_all rfl) (by with_unfolding_all rfl) (by with_unfolding_all rfl)
    (by with_unfolding_all rfl) (by with_unfolding_all rfl) (by with_unfolding_all rfl)
    (by with_unfolding_all rfl) (by with_unfolding_all rfl)

/-- C3: for every request that passes all validation checks, the
`affordabilityDuration` field of the 200 response is the floor of
`(totalSavings + totalMonthlyIncome * monthsToEvaluate) / totalMonthlyCost`
over the converted field values. -/
theorem c3_affordabilityDuration_floor (req : ValidateRequest) (resp : CalcResponse)
    (masc mlc rent dep inc sav : ℚ) (n : ℤ)
    (h : validateHandler req = .ok resp)
    (hmasc : jsParseFloat req.movingAndSetupCost = some masc)
    (hmlc : jsParseFloat req.monthlyLivingCost = some mlc)
    (hrent : jsParseFloat req.rent = some rent)
    (hdep : jsParseFloat req.securityDeposit = some dep)
    (hinc : jsParseFloat req.totalMonthlyIncome = some inc)
    (hsav : jsParseFloat req.totalSavings = some sav)
    (hn : jsParseInt req.monthsToEvaluate = some n) :
    resp.affordabilityDuration = .fin ⌊(sav + inc * (n : ℚ)) / (mlc + rent)⌋ := by
  obtain ⟨-, h2, h3, -, -, -, -, -, n2, n3, -, -, -, -, hresp⟩ :=
    validate_ok_elim req resp h
  unfold cLivingPR at h2
  unfold cRentPR at h3
  have hmlc0 : 0 ≤ mlc :=
    parseFloat_nonneg _ _ n2 hmlc (Bool.or_eq_false_iff.mp h2).2
  have hrent0 : 0 < rent :=
    parseFloat_pos _ _ n3 hrent (Bool.or_eq_false_iff.mp h3).2
  have hT : mlc + rent ≠ 0 := ne_of_gt (by linarith)
  subst hresp
  rw [convertedResponse, toJSNumFloat_eq _ _ hmasc, toJSNumFloat_eq _ _ hmlc,
    toJSNumFloat_eq _ _ hrent, toJSNumFloat_eq _ _ hdep, toJSNumFloat_eq _ _ hinc,
    toJSNumFloat_eq _ _ hsav, toJSNumInt_eq _ _ hn]
  simp only [calculate, jsAdd_fin, jsMul_fin]
  rw [jsDiv_fin _ _ hT, jsFloor_fin]

/-- Witness for C3 at the worked example of the spec, whose duration is
floor of 29000 / 1700, namely 17 months. -/
theorem c3_witness :
    exampleResp.affordabilityDuration =
      .fin ⌊((5000 : ℚ) + 4000 * ((6 : ℤ) : ℚ)) / (200 + 1500)⌋
    ∧ (⌊((5000 : ℚ) + 4000 * ((6 : ℤ) : ℚ)) / (200 + 1500)⌋ : ℤ) = 17 :=
  ⟨c3_affordabilityDuration_floor exampleReq exampleResp 1000 200 1500 1500 4000 5000 6
    (by with_unfolding_all rfl) (by with_unfolding_all rfl) (by with_unfolding_all rfl)
    (by with_unfolding_all rfl) (by with_unfolding_all rfl) (by with_unfolding_all rfl)
    (by with_unfolding_all rfl) (by with_unfolding_all rfl),
   by with_unfolding_all rfl⟩

/-- C2 counterexample: the request `reqMonthsDotNine` (months given as the
numeric string ".9e1", validated as 9) passes every validation check and
is not affordable, yet `additionalMonthlyIncomeNeeded` in its 200 response
is the string "NaN" - neither 0 nor a rendering with two decimal digits
(it contains no decimal point at all): `parseInt` turns the months value
into `NaN`, which poisons the shortfall formula. -/
theorem c2_counterexample :
    validateHandler reqMonthsDotNine = .ok respMonthsDotNine
    ∧ respMonthsDotNine.canAfford = false
    ∧ respMonthsDotNine.additionalMonthlyIncomeNeeded = .jstr "NaN"
    ∧ String.contains "NaN" ('.') = false :=
  ⟨by with_unfolding_all rfl, by with_unfolding_all rfl,
   by with_unfolding_all rfl, by with_unfolding_all rfl⟩

/-- C2 amended: for every request that passes all validation checks and
whose `monthsToEvaluate` is read by `parseInt` as an integer `n >= 1`
(which holds for every purely numeric months value, but not for exotic
numeric strings such as ".9e1"), `additionalMonthlyIncomeNeeded` is the
JSON number 0 when `canAfford` is true and otherwise the string rendering,
with exactly two decimal digits, of
`(totalCostOverTime - totalSavings) / monthsToEvaluate - totalMonthlyIncome`. -/
theorem c2_additionalIncome_amended (req : ValidateRequest) (resp : CalcResponse)
    (masc mlc rent dep inc sav : ℚ) (n : ℤ)
    (h : validateHandler req = .ok resp)
    (hmasc : jsParseFloat req.movingAndSetupCost = some masc)
    (hmlc : jsParseFloat req.monthlyLivingCost = some mlc)
    (hrent : jsParseFloat req.rent = some rent)
    (hdep : jsParseFloat req.securityDeposit = some dep)
    (hinc : jsParseFloat req.totalMonthlyIncome = some inc)
    (hsav : jsParseFloat req.totalSavings = some sav)
    (hn : jsParseInt req.monthsToEvaluate = some n)
    (hn1 : 1 ≤ n) :
    (resp.canAfford = true → resp.additionalMonthlyIncomeNeeded = .jnum 0)
    ∧ (resp.canAfford = false → resp.additionalMonthlyIncomeNeeded =
        .jstr (toFixed2 (((masc + dep) + (mlc + rent) * (n : ℚ) - sav) / (n : ℚ) - inc))) := by
  obtain ⟨-, -, -, -, -, -, -, -, -, -, -, -, -, -, hresp⟩ :=
    validate_ok_elim req resp h
  subst hresp
  have hq1 : (1 : ℚ) ≤ (n : ℚ) := by exact_mod_cast hn1
  have hn0 : ((n : ℚ)) ≠ 0 := ne_of_gt (by linarith)
  rw [convertedResponse, toJSNumFloat_eq _ _ hmasc, toJSNumFloat_eq _ _ hmlc,
    toJSNumFloat_eq _ _ hrent, toJSNumFloat_eq _ _ hdep, toJSNumFloat_eq _ _ hinc,
    toJSNumFloat_eq _ _ hsav, toJSNumInt_eq _ _ hn]
  simp only [calculate, jsAdd_fin, jsMul_fin, jsGe_fin]
  constructor
  · intro hca
    simp only [hca, if_true]
  · intro hca
    simp only [hca, if_false, Bool.false_eq_true]
    rw [jsSub_fin, jsDiv_fin _ _ hn0, jsSub_fin, jsToFixed2_fin]

/-- Witness for the amended C2 at the low-income worked example of the
spec: the response carries the string "783.33", the two-decimal rendering
of the shortfall. -/
theorem c2_witness :
    (exampleRespLowIncome.canAfford = false →
      exampleRespLowIncome.additionalMonthlyIncomeNeeded =
        .jstr (toFixed2 ((((1000 : ℚ) + 1500) + ((200 : ℚ) + 1500) * ((6 : ℤ) : ℚ) - 5000) /
          ((6 : ℤ) : ℚ) - 500)))
    ∧ toFixed2 ((((1000 : ℚ) + 1500) + ((200 : ℚ) + 1500) * ((6 : ℤ) : ℚ) - 5000) /
        ((6 : ℤ) : ℚ) - 500) = "783.33" :=
  ⟨(c2_additionalIncome_amended exampleReqLowIncome exampleRespLowIncome
      1000 200 1500 1500 500 5000 6
      (by with_unfolding_all rfl) (by with_unfolding_all rfl) (by with_unfolding_all rfl)
      (by with_unfolding_all rfl) (by with_unfolding_all rfl) (by with_unfolding_all rfl)
      (by with_unfolding_all rfl) (by with_unfolding_all rfl) (by decide)).2,
   by with_unfolding_all rfl⟩

/-- C10: in every 200 response, `additionalMonthlyIncomeNeeded` is the
JSON number 0 when `canAfford` is true, and a JSON string (the `toFixed`
rendering) when `canAfford` is false - the field changes JSON type between
the two cases. -/
theorem c10_additionalIncome_type_split (req : ValidateRequest) (resp : CalcResponse)
    (h : validateHandler req = .ok resp) :
    (resp.canAfford = true → resp.additionalMonthlyIncomeNeeded = .jnum 0)
    ∧ (resp.canAfford = false → ∃ s, resp.additionalMonthlyIncomeNeeded = .jstr s) := by
  obtain ⟨-, -, -, -, -, -, -, -, -, -, -, -, -, -, hresp⟩ :=
    validate_ok_elim req resp h
  subst hresp
  rw [convertedResponse]
  refine ⟨fun hca => ?_, fun hca => ?_⟩
  · simp only [calculate] at hca ⊢
    simp [hca]
  · simp only [calculate] at hca ⊢
    simp [hca]

/-- Witness for C10 at the low-income worked example: `canAfford` is false
and the field is a string. -/
theorem c10_witness :
    (exampleRespLowIncome.canAfford = true →
      exampleRespLowIncome.additionalMonthlyIncomeNeeded = .jnum 0)
    ∧ (exampleRespLowIncome.canAfford = false →
      ∃ s, exampleRespLowIncome.additionalMonthlyIncomeNeeded = .jstr s) :=
  c10_additionalIncome_type_split exampleReqLowIncome exampleRespLowIncome
    (by with_unfolding_all rfl)

/-- C9 counterexample: `reqMonthsZeroNine` satisfies every validation
check (rent truthy and positive, monthlyLivingCost truthy and
nonnegative), yet the division computing `additionalMonthlyIncomeNeeded`
divides by zero: `parseInt` reads the accepted months string "0.9e1" as 0,
the response renders the shortfall as "Infinity", and so the divisions of
the calculation are not all free of zero divisors as claimed. -/
theorem c9_counterexample :
    validateHandler reqMonthsZeroNine = .ok respMonthsZeroNine
    ∧ jsParseInt reqMonthsZeroNine.monthsToEvaluate = some 0
    ∧ respMonthsZeroNine.additionalMonthlyIncomeNeeded = .jstr "Infinity" :=
  ⟨by with_unfolding_all rfl, by with_unfolding_all rfl, by with_unfolding_all rfl⟩

/-- C9 amended: for every input accepted by the validation,
`totalMonthlyCost = monthlyLivingCost + rent` is strictly positive, so the
division computing `affordabilityDuration` never divides by zero and the
500 branch stays unreachable (nothing in the calculation throws); the
division computing `additionalMonthlyIncomeNeeded`, however, divides by
`parseInt(monthsToEvaluate)`, which can be zero for exotic accepted
strings (see the counterexample). -/
theorem c9_totalMonthlyCost_pos_amended (req : ValidateRequest) (resp : CalcResponse)
    (mlc rent : ℚ)
    (h : validateHandler req = .ok resp)
    (hmlc : jsParseFloat req.monthlyLivingCost = some mlc)
    (hrent : jsParseFloat req.rent = some rent) :
    0 < mlc + rent ∧ resp.totalMonthlyCost = .fin (mlc + rent) := by
  obtain ⟨-, h2, h3, -, -, -, -, -, n2, n3, -, -, -, -, hresp⟩ :=
    validate_ok_elim req resp h
  unfold cLivingPR at h2
  unfold cRentPR at h3
  have hmlc0 : 0 ≤ mlc :=
    parseFloat_nonneg _ _ n2 hmlc (Bool.or_eq_false_iff.mp h2).2
  have hrent0 : 0 < rent :=
    parseFloat_pos _ _ n3 hrent (Bool.or_eq_false_iff.mp h3).2
  subst hresp
  refine ⟨by linarith, ?_⟩
  rw [convertedResponse, toJSNumFloat_eq _ _ hmlc, toJSNumFloat_eq _ _ hrent]
  simp only [calculate, jsAdd_fin]

/-- Witness for the amended C9 at the worked example: the monthly cost is
the positive number 1700. -/
theorem c9_witness :
    0 < (200 : ℚ) + 1500 ∧ exampleResp.totalMonthlyCost = .fin (200 + 1500) :=
  c9_totalMonthlyCost_pos_amended exampleReq exampleResp 200 1500
    (by with_unfolding_all rfl) (by with_unfolding_all rfl) (by with_unfolding_all rfl)

/-- C4 counterexample: in `reqMonthsShadowed` the months field is present
and far above 60, yet the response is the rent error, not the
months-specific message - the three checks that precede the months check
can shadow it, so "regardless of other field validity" fails. -/
theorem c4_counterexample :
    truthy reqMonthsShadowed.monthsToEvaluate = true
    ∧ jsToNumber reqMonthsShadowed.monthsToEvaluate = some 100
    ∧ (60 : ℚ) < 100
    ∧ validateHandler reqMonthsShadowed = .badRequest "Invalid rent provided."
    ∧ validateHandler reqMonthsShadowed ≠
        .badRequest "Months To Evaluate must be between 1 and 60." :=
  ⟨by with_unfolding_all rfl, by with_unfolding_all rfl, by norm_num,
   by with_unfolding_all rfl, of_decide_eq_true (by with_unfolding_all rfl)⟩

/-- C4 amended: whenever the three checks that run before the months check
(moving and setup costs, monthly living costs, rent) pass and the coerced
`monthsToEvaluate` lies outside [1, 60], the response is the 400
months-specific message, regardless of the validity of the fields checked
afterwards (securityDeposit, totalMonthlyIncome, totalSavings). -/
theorem c4_months_range_amended (req : ValidateRequest) (q : ℚ)
    (h1 : cMovingPR req = false) (h2 : cLivingPR req = false) (h3 : cRentPR req = false)
    (hq : jsToNumber req.monthsToEvaluate = some q)
    (hout : q < 1 ∨ 60 < q) :
    validateHandler req = .badRequest "Months To Evaluate must be between 1 and 60." := by
  have hm : cMonthsPR req = true := by
    unfold cMonthsPR jsLtNum jsGtNum
    rw [hq]
    rcases hout with hlt | hgt
    · have hd : decide (q < 1) = true := decide_eq_true hlt
      simp [hd]
    · have hd : decide ((60 : ℚ) < q) = true := decide_eq_true hgt
      simp [hd]
  unfold validateHandler
  rw [if_neg (by simp [h1]), if_neg (by simp [h2]), if_neg (by simp [h3]), if_pos hm]

/-- Witness for the amended C4: months 100 with every other field valid
produces the months-specific message. -/
theorem c4_witness :
    validateHandler reqMonthsHundred =
      .badRequest "Months To Evaluate must be between 1 and 60." :=
  c4_months_range_amended reqMonthsHundred 100 (by with_unfolding_all rfl)
    (by with_unfolding_all rfl) (by with_unfolding_all rfl) (by with_unfolding_all rfl)
    (Or.inr (by norm_num))

/-- C5: for every required field, a request carrying the value 0 in that
field while every field of the base request passes its presence/range
check is rejected with the 400 message naming that field: the `!value`
presence test treats the falsy 0 as missing. -/
theorem c5_zero_rejected_as_missing (req : ValidateRequest)
    (h1 : cMovingPR req = false) (h2 : cLivingPR req = false) (h3 : cRentPR req = false)
    (h4 : cMonthsPR req = false) (h5 : cDepositPR req = false) (h6 : cIncomePR req = false)
    (_h7 : cSavingsPR req = false) :
    validateHandler { req with movingAndSetupCost := .num 0 } =
      .badRequest "Invalid moving and setup costs provided."
    ∧ validateHandler { req with monthlyLivingCost := .num 0 } =
      .badRequest "Invalid monthly living costs provided."
    ∧ validateHandler { req with rent := .num 0 } =
      .badRequest "Invalid rent provided."
    ∧ validateHandler { req with monthsToEvaluate := .num 0 } =
      .badRequest "Months To Evaluate must be between 1 and 60."
    ∧ validateHandler { req with securityDeposit := .num 0 } =
      .badRequest "Invalid security deposit provided."
    ∧ validateHandler { req with totalMonthlyIncome := .num 0 } =
      .badRequest "Invalid total monthly income provided."
    ∧ validateHandler { req with totalSavings := .num 0 } =
      .badRequest "Invalid total savings provided." := by
  refine ⟨?_, ?_, ?_, ?_, ?_, ?_, ?_⟩
  · have hm : cMovingPR { req with movingAndSetupCost := JSVal.num 0 } = true := by
      with_unfolding_all rfl
    unfold validateHandler
    rw [if_pos hm]
  · have e1 : cMovingPR { req with monthlyLivingCost := JSVal.num 0 } = false := h1
    have hm : cLivingPR { req with monthlyLivingCost := JSVal.num 0 } = true := by
      with_unfolding_all rfl
    unfold validateHandler
    rw [if_neg (by simp [e1]), if_pos hm]
  · have e1 : cMovingPR { req with rent := JSVal.num 0 } = false := h1
    have e2 : cLivingPR { req with rent := JSVal.num 0 } = false := h2
    have hm : cRentPR { req with rent := JSVal.num 0 } = true := by
      with_unfolding_all rfl
    unfold validateHandler
    rw [if_neg (by simp [e1]), if_neg (by simp [e2]), if_pos hm]
  · have e1 : cMovingPR { req with monthsToEvaluate := JSVal.num 0 } = false := h1
    have e2 : cLivingPR { req with monthsToEvaluate := JSVal.num 0 } = false := h2
    have e3 : cRentPR { req with monthsToEvaluate := JSVal.num 0 } = false := h3
    have hm : cMonthsPR { req with monthsToEvaluate := JSVal.num 0 } = true := by
      with_unfolding_all rfl
    unfold validateHandler
    rw [if_neg (by simp [e1]), if_neg (by simp [e2]), if_neg (by simp [e3]), if_pos hm]
  · have e1 : cMovingPR { req with securityDeposit := JSVal.num 0 } = false := h1
    have e2 : cLivingPR { req with securityDeposit := JSVal.num 0 } = false := h2
    have e3 : cRentPR { req with securityDeposit := JSVal.num 0 } = false := h3
    have e4 : cMonthsPR { req with securityDeposit := JSVal.num 0 } = false := h4
    have hm : cDepositPR { req with securityDeposit := JSVal.num 0 } = true := by
      with_unfolding_all rfl
    unfold validateHandler
    rw [if_neg (by simp [e1]), if_neg (by simp [e2]), if_neg (by simp [e3]),
      if_neg (by simp [e4]), if_pos hm]
  · have e1 : cMovingPR { req with totalMonthlyIncome := JSVal.num 0 } = false := h1
    have e2 : cLivingPR { req with totalMonthlyIncome := JSVal.num 0 } = false := h2
    have e3 : cRentPR { req with totalMonthlyIncome := JSVal.num 0 } = false := h3
    have e4 : cMonthsPR { req with totalMonthlyIncome := JSVal.num 0 } = false := h4
    have e5 : cDepositPR { req with totalMonthlyIncome := JSVal.num 0 } = false := h5
    have hm : cIncomePR { req with totalMonthlyIncome := JSVal.num 0 } = true := by
      with_unfolding_all rfl
    unfold validateHandler
    rw [if_neg (by simp [e1]), if_neg (by simp [e2]), if_neg (by simp [e3]),
      if_neg (by simp [e4]), if_neg (by simp [e5]), if_pos hm]
  · have e1 : cMovingPR { req with totalSavings := JSVal.num 0 } = false := h1
    have e2 : cLivingPR { req with totalSavings := JSVal.num 0 } = false := h2
    have e3 : cRentPR { req with totalSavings := JSVal.num 0 } = false := h3
    have e4 : cMonthsPR { req with totalSavings := JSVal.num 0 } = false := h4
    have e5 : cDepositPR { req with totalSavings := JSVal.num 0 } = false := h5
    have e6 : cIncomePR { req with totalSavings := JSVal.num 0 } = false := h6
    have hm : cSavingsPR { req with totalSavings := JSVal.num 0 } = true := by
      with_unfolding_all rfl
    unfold validateHandler
    rw [if_neg (by simp [e1]), if_neg (by simp [e2]), if_neg (by simp [e3]),
      if_neg (by simp [e4]), if_neg (by simp [e5]), if_neg (by simp [e6]), if_pos hm]

/-- Witness for C5 at the worked example: zeroing each field of a fully
valid request yields that field's 400 message. -/
theorem c5_witness :
    validateHandler { exampleReq with movingAndSetupCost := .num 0 } =
      .badRequest "Invalid moving and setup costs provided."
    ∧ validateHandler { exampleReq with monthlyLivingCost := .num 0 } =
      .badRequest "Invalid monthly living costs provided."
    ∧ validateHandler { exampleReq with rent := .num 0 } =
      .badRequest "Invalid rent provided."
    ∧ validateHandler { exampleReq with monthsToEvaluate := .num 0 } =
      .badRequest "Months To Evaluate must be between 1 and 60."
    ∧ validateHandler { exampleReq with securityDeposit := .num 0 } =
      .badRequest "Invalid security deposit provided."
    ∧ validateHandler { exampleReq with totalMonthlyIncome := .num 0 } =
      .badRequest "Invalid total monthly income provided."
    ∧ validateHandler { exampleReq with totalSavings := .num 0 } =
      .badRequest "Invalid total savings provided." :=
  c5_zero_rejected_as_missing exampleReq
    (by with_unfolding_all rfl) (by with_unfolding_all rfl) (by with_unfolding_all rfl)
    (by with_unfolding_all rfl) (by with_unfolding_all rfl) (by with_unfolding_all rfl)
    (by with_unfolding_all rfl)

/-- C6 counterexample: with both `securityDeposit` (a whitespace string)
and `monthsToEvaluate` ("abc") failing only the numeric-format check, the
handler reports the deposit because the numeric loop follows the
`parameters` insertion order (months last), while first-failure-wins in
the claimed single field order (months fourth) would report the months
field. -/
theorem c6_counterexample :
    validateHandler reqTwoNonNumeric =
      .badRequest "Security Deposit must be a valid number."
    ∧ claimedFirstError reqTwoNonNumeric =
      some "Months to Evaluate must be a valid number."
    ∧ ("Security Deposit must be a valid number." : String) ≠
      "Months to Evaluate must be a valid number." :=
  ⟨by with_unfolding_all rfl, by with_unfolding_all rfl,
   of_decide_eq_true (by with_unfolding_all rfl)⟩

/-- C6 amended: the handler returns exactly one error message, chosen
first-failure-wins over the fourteen checks of `checkList`: the seven
presence/range checks in the order movingAndSetupCost, monthlyLivingCost,
rent, monthsToEvaluate, securityDeposit, totalMonthlyIncome, totalSavings,
followed by the seven numeric-format checks, which run only after every
presence/range check has passed and whose field order places
monthsToEvaluate last (after the other six) rather than fourth. -/
theorem c6_first_failure_wins (req : ValidateRequest) :
    validateHandler req =
      match firstError (checkList req) with
      | some e => .badRequest e
      | none => .ok (convertedResponse req) := by
  unfold validateHandler checkList
  by_cases c1 : cMovingPR req = true
  · simp [firstError, c1]
  by_cases c2 : cLivingPR req = true
  · simp [firstError, c1, c2]
  by_cases c3 : cRentPR req = true
  · simp [firstError, c1, c2, c3]
  by_cases c4 : cMonthsPR req = true
  · simp [firstError, c1, c2, c3, c4]
  by_cases c5 : cDepositPR req = true
  · simp [firstError, c1, c2, c3, c4, c5]
  by_cases c6 : cIncomePR req = true
  · simp [firstError, c1, c2, c3, c4, c5, c6]
  by_cases c7 : cSavingsPR req = true
  · simp [firstError, c1, c2, c3, c4, c5, c6, c7]
  by_cases c8 : (!isNumeric req.movingAndSetupCost) = true
  · simp [firstError, c1, c2, c3, c4, c5, c6, c7, c8]
  by_cases c9 : (!isNumeric req.monthlyLivingCost) = true
  · simp [firstError, c1, c2, c3, c4, c5, c6, c7, c8, c9]
  by_cases c10 : (!isNumeric req.rent) = true
  · simp [firstError, c1, c2, c3, c4, c5, c6, c7, c8, c9, c10]
  by_cases c11 : (!isNumeric req.securityDeposit) = true
  · simp [firstError, c1, c2, c3, c4, c5, c6, c7, c8, c9, c10, c11]
  by_cases c12 : (!isNumeric req.totalMonthlyIncome) = true
  · simp [firstError, c1, c2, c3, c4, c5, c6, c7, c8, c9, c10, c11, c12]
  by_cases c13 : (!isNumeric req.totalSavings) = true
  · simp [firstError, c1, c2, c3, c4, c5, c6, c7, c8, c9, c10, c11, c12, c13]
  by_cases c14 : (!isNumeric req.monthsToEvaluate) = true
  · simp [firstError, c1, c2, c3, c4, c5, c6, c7, c8, c9, c10, c11, c12, c13, c14]
  simp [firstError, c1, c2, c3, c4, c5, c6, c7, c8, c9, c10, c11, c12, c13, c14]

/-- C7: the feedback middleware chain carries only the sanitizers
`trim()` and `escape()` and no validator, so `validationResult` is always
empty and the 400 branch is dead: a whitespace-only submission is not
rejected but trimmed to the empty string and inserted, answered with 201.
Sanitization itself does behave as described: content is trimmed and
HTML-escaped. -/
theorem c7_empty_feedback_is_stored :
    sanitizeFeedback "  Great app!  " = "Great app!"
    ∧ sanitizeFeedback "  <b>Hi</b>  " = "&lt;b&gt;Hi&lt;&#x2F;b&gt;"
    ∧ feedbackValidationErrors "   " = []
    ∧ feedbackHandler "   " (fun s => .ok { id := 1, content := s }) =
      .created { id := 1, content := "" } :=
  ⟨by with_unfolding_all rfl, by with_unfolding_all rfl, rfl,
   by with_unfolding_all rfl⟩

/-- C8: whenever the storage insert fails, whatever the internal error
detail `e` is, the feedback handler answers 500 with exactly the body
`{ error: "Internal server error" }`: the response is a constant
independent of `e`, so no internal exception detail, stack trace or query
text can reach the client; the cause is only logged server-side. -/
theorem c8_storage_failure_opaque (feedback : String) (e : String) :
    feedbackHandler feedback (fun _ => .error e) =
      .serverError "Internal server error" := rfl
